import Mathlib

/-!
Verification of the MamaTracker interval-capture session engine against its
natural-language specification.

The definitions below are a shallow embedding of:
  * `IntervalManager` (src/unnamed/part_002, lines 6-331): the session
    registry and scheduler, including `startSession`, `pauseSession`,
    `resumeSession`, `stopSession`, `startSessionTimer`, `clearTimer`,
    `performCapture`, `updateSessionCaptureCount`, `resumeActiveSessions`,
    and the per-timer tick callback;
  * `DatabaseManager` (src/unnamed/part_000): the persisted
    `interval_sessions` table and the session queries the scheduler uses;
  * `CaptureManager.captureBoth` and `CaptureManager.takeCompositeCapture`
    (src/unnamed/part_002, first CaptureManager copy, lines 1236-1273 and
    1609-1899), including the composite overlay geometry.

Modelling conventions:
  * JS `Map` objects (`this.activeSessions`, `this.timers`) are association
    lists with `Map.set` replace-or-append semantics.
  * The sqlite `interval_sessions` table is a `List SessionRow`; the
    `CHECK(capture_type IN ...)` and PRIMARY KEY constraints of the schema
    are reflected in `DatabaseManager.insertSession`.  `status` and
    `capture_count` are filled by the schema defaults `'active'` and `0`,
    exactly as in the source, which does not pass them to the INSERT.
  * JS timestamps (`new Date()`) are abstract `Nat` instants supplied as a
    `now` argument.
  * JS truthiness of `config.max_captures || null` is modelled by
    `jsOrNull`, which sends `some 0` and `none` to `none`.
  * The outcome of an external capture primitive during a tick is a `Bool`
    parameter (`captureOk`); for capture type `both` it stands for "not both
    primitives failed", matching the only failure `captureBoth` re-throws.
  * Fields that no claim and no modelled control path reads
    (`session_name`, `capture_settings`, capture file paths) are omitted.
  * Errors are a single inductive `IMError`; the source throws plain
    `Error` objects with distinguishing messages ("Session not found: ...",
    "Session is not paused: ...") and sqlite constraint errors, which the
    spec's taxonomy names SessionNotFoundError, StateError and (for the
    missing validation) ValidationError.
-/

namespace MamaTracker

/-- The four persisted session statuses of the `interval_sessions` schema
(`CHECK(status IN ('active','paused','completed','cancelled'))`). -/
inductive SessionStatus where
  | active
  | paused
  | completed
  | cancelled
deriving DecidableEq, Repr

/-- The capture types accepted by the `interval_sessions` and `captures`
schema CHECK constraints: `('screenshot', 'camera', 'both', 'composite')`. -/
def knownCaptureTypes : List String := ["screenshot", "camera", "both", "composite"]

/-- JS `x || null` on an optional positive counter: `0` is falsy, so
`config.max_captures || null` turns `some 0` into `none`. -/
def jsOrNull : Option Nat → Option Nat
  | some 0 => none
  | some (n + 1) => some (n + 1)
  | none => none

/-- The caller-supplied config object of `IntervalManager.startSession`. -/
structure SessionConfig where
  capture_type : String
  interval_seconds : Int
  max_captures : Option Nat := none
  device_id : Option String := none
deriving DecidableEq, Repr

/-- The `sessionData` object `startSession` builds and closes over in the
timer callback. -/
structure SessionData where
  session_id : String
  capture_type : String
  interval_seconds : Int
  max_captures : Option Nat
  device_id : Option String
deriving DecidableEq, Repr

/-- One row of the persisted `interval_sessions` table. -/
structure SessionRow where
  session_id : String
  capture_type : String
  interval_seconds : Int
  max_captures : Option Nat
  device_id : Option String
  start_time : Nat
  end_time : Option Nat
  status : SessionStatus
  capture_count : Nat
deriving DecidableEq, Repr

/-- An entry of the in-memory `this.activeSessions` map: the spread of the
session data plus `status`, `capture_count` and `start_time`. -/
structure MemSession where
  capture_type : String
  interval_seconds : Int
  max_captures : Option Nat
  device_id : Option String
  status : SessionStatus
  capture_count : Nat
  start_time : Nat
deriving DecidableEq, Repr

/-- A live `setInterval` timer: its cancellation handle, the session it was
armed for, and the period it fires at (`sessionData.interval_seconds`). -/
structure Timer where
  handle : Nat
  session_id : String
  interval_seconds : Int
deriving DecidableEq, Repr

/-- Error outcomes of the scheduler's control calls, named after the spec's
taxonomy (§7).  The source raises plain `Error`s with distinguishing
messages and sqlite constraint failures. -/
inductive IMError where
  /-- "Session not found: <id>" -/
  | sessionNotFound
  /-- "Session is not paused: <id>" -/
  | stateError
  /-- sqlite `CHECK(capture_type IN (...))` violation on INSERT -/
  | checkConstraint
  /-- sqlite PRIMARY KEY violation on INSERT -/
  | uniqueConstraint
deriving DecidableEq, Repr

/-! ### JS `Map` association lists -/

/-- `Map.get`. -/
def mapLookup {α : Type} : List (String × α) → String → Option α
  | [], _ => none
  | p :: rest, k => if p.1 == k then some p.2 else mapLookup rest k

/-- `Map.set`: replace in place if the key is present, else append.
Map keys are unique, so replacing the first occurrence is Map semantics. -/
def mapSet {α : Type} : List (String × α) → String → α → List (String × α)
  | [], k, v => [(k, v)]
  | p :: rest, k, v => if p.1 == k then (k, v) :: rest else p :: mapSet rest k v

/-- `Map.delete`. -/
def mapErase {α : Type} (m : List (String × α)) (k : String) :
    List (String × α) :=
  m.filter (fun p => p.1 != k)

/-! ### DatabaseManager (src/unnamed/part_000) -/

namespace DatabaseManager

/-- `getSession`: `SELECT * FROM interval_sessions WHERE session_id = ?`. -/
def getSession : List SessionRow → String → Option SessionRow
  | [], _ => none
  | r :: rest, id => if r.session_id == id then some r else getSession rest id

/-- The row an INSERT of `sessionData` produces: the explicit columns plus
the schema defaults `status = 'active'`, `capture_count = 0` and a NULL
`end_time`. -/
def rowOf (d : SessionData) (now : Nat) : SessionRow :=
  { session_id := d.session_id
  , capture_type := d.capture_type
  , interval_seconds := d.interval_seconds
  , max_captures := jsOrNull d.max_captures
  , device_id := d.device_id
  , start_time := now
  , end_time := none
  , status := .active
  , capture_count := 0 }

/-- `insertSession`: INSERT of the explicit columns; `status` and
`capture_count` come from the schema defaults `'active'` and `0`, and
`end_time` is left NULL.  The schema's `CHECK(capture_type IN ...)` and the
PRIMARY KEY on `session_id` make the INSERT throw when violated; note that
`insertSession` performs `sessionData.max_captures || null` itself
(part_000 line 243). -/
def insertSession (db : List SessionRow) (d : SessionData) (now : Nat) :
    Except IMError (List SessionRow) :=
  if ¬ knownCaptureTypes.contains d.capture_type then
    .error .checkConstraint
  else if (getSession db d.session_id).isSome then
    .error .uniqueConstraint
  else
    .ok (db ++ [rowOf d now])

/-- `updateSession(id, updates)`: `UPDATE interval_sessions SET ... WHERE
session_id = ?`, applied as a row transformer for the concrete field sets
the scheduler passes. -/
def updateSession (db : List SessionRow) (id : String)
    (f : SessionRow → SessionRow) : List SessionRow :=
  db.map (fun r => if r.session_id == id then f r else r)

/-- `incrementSessionCaptures`: `UPDATE interval_sessions SET capture_count
= capture_count + 1 WHERE session_id = ?`. -/
def incrementSessionCaptures (db : List SessionRow) (id : String) :
    List SessionRow :=
  updateSession db id (fun r => { r with capture_count := r.capture_count + 1 })

/-- `getActiveSessions`: `SELECT * FROM interval_sessions WHERE status IN
('active','paused')`.  The source's `ORDER BY start_time DESC` only permutes
the result; since `session_id` is the PRIMARY KEY the registry built from
the rows is permutation-independent, so the model keeps table order. -/
def getActiveSessions (db : List SessionRow) : List SessionRow :=
  db.filter (fun r => r.status = .active ∨ r.status = .paused)

end DatabaseManager

/-! ### IntervalManager (src/unnamed/part_002, lines 6-331) -/

/-- The mutable state of one `IntervalManager` together with its
`DatabaseManager`: the persisted table, the two in-memory maps, the set of
armed-and-not-yet-cancelled `setInterval` timers, and a fresh-handle
counter. -/
structure IMState where
  db : List SessionRow
  activeSessions : List (String × MemSession)
  timers : List (String × Nat)
  liveTimers : List Timer
  nextHandle : Nat
deriving DecidableEq, Repr

namespace IntervalManager

open DatabaseManager

/-- The `sessionData` object built at the top of `startSession` (part_002
lines 27-35), including the `config.max_captures || null` normalisation. -/
def sessionDataOf (config : SessionConfig) (sessionId : String) : SessionData :=
  { session_id := sessionId
  , capture_type := config.capture_type
  , interval_seconds := config.interval_seconds
  , max_captures := jsOrNull config.max_captures
  , device_id := config.device_id }

/-- `startSessionTimer(sessionId, sessionData)` (lines 59-87): arm a fresh
`setInterval` timer of period `sessionData.interval_seconds` and store its
handle with `this.timers.set(sessionId, timer)` — overwriting any handle
already stored for the id without cancelling that earlier timer. -/
def startSessionTimer (st : IMState) (sessionId : String) (data : SessionData) :
    IMState :=
  { st with
    liveTimers := st.liveTimers ++ [⟨st.nextHandle, sessionId, data.interval_seconds⟩]
    timers := mapSet st.timers sessionId st.nextHandle
    nextHandle := st.nextHandle + 1 }

/-- `clearTimer(sessionId)` (lines 243-249): `clearInterval` the stored
handle, if any, and delete the map entry. -/
def clearTimer (st : IMState) (sessionId : String) : IMState :=
  match mapLookup st.timers sessionId with
  | some h =>
      { st with
        liveTimers := st.liveTimers.filter (fun tmr => tmr.handle != h)
        timers := mapErase st.timers sessionId }
  | none => st

/-- `startSession(config)` (lines 24-57): build `sessionData`, INSERT it
(any sqlite error is re-thrown by the catch), arm the timer, register the
in-memory session with `status: 'active'` and `capture_count: 0`, and
return the generated id.  The source performs no validation of
`interval_seconds` or `capture_type`; the only rejection comes from the
schema's CHECK constraint inside the INSERT.  The freshly generated uuid is
passed in as `sessionId`. -/
def startSession (st : IMState) (config : SessionConfig) (sessionId : String)
    (now : Nat) : Except IMError (String × IMState) :=
  let data := sessionDataOf config sessionId
  match insertSession st.db data now with
  | .error e => .error e
  | .ok db' =>
      let st1 := { st with db := db' }
      let st2 := startSessionTimer st1 sessionId data
      let mem : MemSession :=
        { capture_type := data.capture_type
        , interval_seconds := data.interval_seconds
        , max_captures := data.max_captures
        , device_id := data.device_id
        , status := .active
        , capture_count := 0
        , start_time := now }
      .ok (sessionId,
           { st2 with activeSessions := mapSet st2.activeSessions sessionId mem })

/-- The state `startSession` produces when the INSERT went through: the
appended row, the armed timer, and the registered in-memory session. -/
def startedState (st : IMState) (config : SessionConfig) (sessionId : String)
    (now : Nat) : IMState :=
  let data := sessionDataOf config sessionId
  let st2 := startSessionTimer
    { st with db := st.db ++ [DatabaseManager.rowOf data now] } sessionId data
  let mem : MemSession :=
    { capture_type := data.capture_type
    , interval_seconds := data.interval_seconds
    , max_captures := data.max_captures
    , device_id := data.device_id
    , status := .active
    , capture_count := 0
    , start_time := now }
  { st2 with activeSessions := mapSet st2.activeSessions sessionId mem }

/-- `pauseSession(sessionId)` (lines 165-187). -/
def pauseSession (st : IMState) (sessionId : String) : Except IMError IMState :=
  match mapLookup st.activeSessions sessionId with
  | none => .error .sessionNotFound
  | some s =>
      let st1 := clearTimer st sessionId
      let st2 := { st1 with
        activeSessions := mapSet st1.activeSessions sessionId { s with status := .paused } }
      .ok { st2 with
        db := updateSession st2.db sessionId (fun r => { r with status := .paused }) }

/-- `resumeSession(sessionId)` (lines 189-215): not-found and not-paused
checks, then set the in-memory status to active, re-arm the timer with the
in-memory session object as the closure (so at the original
`interval_seconds`), and persist `status: 'active'`. -/
def resumeSession (st : IMState) (sessionId : String) : Except IMError IMState :=
  match mapLookup st.activeSessions sessionId with
  | none => .error .sessionNotFound
  | some s =>
      if s.status ≠ .paused then .error .stateError
      else
        let s' := { s with status := SessionStatus.active }
        let st1 := { st with activeSessions := mapSet st.activeSessions sessionId s' }
        let data : SessionData :=
          { session_id := sessionId
          , capture_type := s'.capture_type
          , interval_seconds := s'.interval_seconds
          , max_captures := s'.max_captures
          , device_id := s'.device_id }
        let st2 := startSessionTimer st1 sessionId data
        .ok { st2 with
          db := updateSession st2.db sessionId (fun r => { r with status := .active }) }

/-- `stopSession(sessionId)` (lines 217-241): not-found check, cancel the
timer, remove the session from the in-memory registry and persist
`{ status: 'completed', end_time: now }` — unconditionally `'completed'`,
whatever caused the stop. -/
def stopSession (st : IMState) (sessionId : String) (now : Nat) :
    Except IMError IMState :=
  match mapLookup st.activeSessions sessionId with
  | none => .error .sessionNotFound
  | some _ =>
      let st1 := clearTimer st sessionId
      let st2 := { st1 with activeSessions := mapErase st1.activeSessions sessionId }
      .ok { st2 with
        db := updateSession st2.db sessionId
          (fun r => { r with status := .completed, end_time := some now }) }

/-- `getActiveSessions()` (lines 251-253): the values of the in-memory map. -/
def getActiveSessions (st : IMState) : List MemSession :=
  st.activeSessions.map (fun p => p.2)

/-- `updateSessionCaptureCount(sessionId)` (lines 129-151): increment the
persisted counter, re-read the row, and overwrite the in-memory count with
the database's value when both the row and the registry entry exist. -/
def updateSessionCaptureCount (st : IMState) (sessionId : String) : IMState :=
  let db' := incrementSessionCaptures st.db sessionId
  let st1 := { st with db := db' }
  match getSession db' sessionId, mapLookup st1.activeSessions sessionId with
  | some row, some s =>
      let s' : MemSession := { s with capture_count := row.capture_count }
      { st1 with activeSessions := mapSet st1.activeSessions sessionId s' }
  | _, _ => st1

/-- Whether `performCapture` (lines 89-126) throws for a given capture type
and primitive outcome, as seen by the tick callback's catch:
`captureFullScreen` and `capturePhoto` re-throw their failures,
`captureBoth` throws only when both primitives failed (`captureOk` stands
for "not both failed"), `takeCompositeCapture` catches everything and
returns a `{ success: false }` object instead of throwing, and an unknown
capture type always throws. -/
def performCaptureThrows (captureType : String) (captureOk : Bool) : Bool :=
  if captureType == "screenshot" then !captureOk
  else if captureType == "camera" then !captureOk
  else if captureType == "both" then !captureOk
  else if captureType == "composite" then false
  else true

/-- The `sessionData.max_captures && session.capture_count >=
sessionData.max_captures` guard of the tick callback (line 69), with JS
truthiness: a null — and a hypothetical `0` — cap never triggers the stop. -/
def maxReached (maxCaptures : Option Nat) (count : Nat) : Bool :=
  match maxCaptures with
  | some m => decide (m ≠ 0) && decide (m ≤ count)
  | none => false

/-- One firing of the `setInterval` callback armed by `startSessionTimer`
(lines 60-84), with `closure` the captured `sessionData`:
(1) a missing or non-active registry entry cancels the timer and returns;
(2) a reached cap stops the session (the callback's catch swallows a
`stopSession` failure) and returns before capturing;
(3) otherwise `performCapture` runs: if it throws, the catch logs and
leaves everything unchanged; if it returns — including a composite
`{ success: false }` — `updateSessionCaptureCount` increments the counter. -/
def tick (st : IMState) (closure : SessionData) (captureOk : Bool) (now : Nat) :
    IMState :=
  match mapLookup st.activeSessions closure.session_id with
  | none => clearTimer st closure.session_id
  | some s =>
      if s.status ≠ .active then clearTimer st closure.session_id
      else if maxReached closure.max_captures s.capture_count then
        match stopSession st closure.session_id now with
        | .ok st' => st'
        | .error _ => st
      else if performCaptureThrows closure.capture_type captureOk then st
      else updateSessionCaptureCount st closure.session_id

/-- A sequence of tick firings of one timer, each with the primitive
outcome and instant of that firing. -/
def ticks (closure : SessionData) (st : IMState) (events : List (Bool × Nat)) :
    IMState :=
  events.foldl (fun acc e => tick acc closure e.1 e.2) st

/-- The body of the `for` loop of `resumeActiveSessions` (lines 263-274),
iterated over the rows the Store returned: register the row (spreading its
persisted fields, `capture_count` and `status` included) and re-arm a timer
only when the persisted status is active, the row being the timer's
closure. -/
def resumeRow (st : IMState) (row : SessionRow) : IMState :=
  let mem : MemSession :=
    { capture_type := row.capture_type
    , interval_seconds := row.interval_seconds
    , max_captures := row.max_captures
    , device_id := row.device_id
    , status := row.status
    , capture_count := row.capture_count
    , start_time := row.start_time }
  let st1 := { st with activeSessions := mapSet st.activeSessions row.session_id mem }
  if row.status = .active then
    startSessionTimer st1 row.session_id
      { session_id := row.session_id
      , capture_type := row.capture_type
      , interval_seconds := row.interval_seconds
      , max_captures := row.max_captures
      , device_id := row.device_id }
  else st1

/-- The in-memory session `resumeActiveSessions` registers for a row. -/
def memFromRow (row : SessionRow) : MemSession :=
  { capture_type := row.capture_type
  , interval_seconds := row.interval_seconds
  , max_captures := row.max_captures
  , device_id := row.device_id
  , status := row.status
  , capture_count := row.capture_count
  , start_time := row.start_time }

/-- `resumeActiveSessions()` (lines 259-280): fold `resumeRow` over the
rows of `DatabaseManager.getActiveSessions`. -/
def resumeActiveSessions (st : IMState) : IMState :=
  (DatabaseManager.getActiveSessions st.db).foldl resumeRow st

/-- The scheduler state right after process start, before any recovery:
only the persisted table survives the restart. -/
def freshState (db : List SessionRow) : IMState :=
  { db := db, activeSessions := [], timers := [], liveTimers := [], nextHandle := 0 }

/-- `true` when the handle stored in `this.timers` for the id belongs to a
still-live (armed, not cleared) timer for that id. -/
def hasLiveTimerFor (st : IMState) (sessionId : String) : Bool :=
  match mapLookup st.timers sessionId with
  | some h => st.liveTimers.any (fun tmr => tmr.handle == h && tmr.session_id == sessionId)
  | none => false

/-- `hasLiveTimerFor`, additionally demanding the live timer's period. -/
def hasLiveTimerAt (st : IMState) (sessionId : String) (iv : Int) : Bool :=
  match mapLookup st.timers sessionId with
  | some h => st.liveTimers.any
      (fun tmr => tmr.handle == h && tmr.session_id == sessionId && tmr.interval_seconds == iv)
  | none => false

end IntervalManager

/-! ### CaptureManager (src/unnamed/part_002, first copy, lines 347-2005) -/

namespace CaptureManager

/-- The object `captureBoth` returns: the two per-modality results (null
when that primitive threw) spread together with the primary result,
`...(screenshotResult || cameraResult)`.  The payloads of the external
primitives are abstract `Nat` tokens. -/
structure BothResult where
  screenshot : Option Nat
  camera : Option Nat
  primary : Nat
deriving DecidableEq, Repr

/-- The one failure `captureBoth` throws: "Both screenshot and camera
captures failed". -/
inductive BothError where
  | bothFailed
deriving DecidableEq, Repr

/-- `captureBoth(deviceId, sessionId)` (lines 1236-1273): each primitive is
invoked in its own try/catch, so a throw of one leaves the other's result
intact as `null`; only the two-sided failure is thrown; otherwise the
screenshot result — or, when the screenshot failed, the camera result — is
spread in as the primary result.  `screenshotOutcome`/`cameraOutcome` are
`some payload` when the primitive succeeded and `none` when it threw.  The
`getD 0` default of `primary` is unreachable: the both-failed case was
thrown just above. -/
def captureBoth (screenshotOutcome cameraOutcome : Option Nat) :
    Except BothError BothResult :=
  if screenshotOutcome = none ∧ cameraOutcome = none then
    .error .bothFailed
  else
    .ok { screenshot := screenshotOutcome
        , camera := cameraOutcome
        , primary := screenshotOutcome.getD (cameraOutcome.getD 0) }

/-- What one `takeCompositeCapture` call did: the returned `success` flag,
whether the composite PNG was written to disk, and whether a `captures` row
was inserted. -/
structure CompositeOutcome where
  success : Bool
  compositeFileWritten : Bool
  captureRecordInserted : Bool
deriving DecidableEq, Repr

/-- The spec's name for a composite failure raised to the caller (§7). -/
inductive CompositeError where
  | compositeError
deriving DecidableEq, Repr

/-- `takeCompositeCapture(options)` (lines 1609-1899).  The body throws on
a failed screenshot sub-capture, a failed camera sub-capture, a canvas
failure, and re-raises a failed `insertCapture`; the composite PNG is
written only after both sub-captures and the canvas composition succeeded,
and the `captures` row only after the PNG write.  The outer catch (lines
1875-1898) converts every one of those throws into a returned
`{ success: false, error }` object, so the call never produces an
`Except.error` toward its caller. -/
def takeCompositeCapture (screenshotOk cameraOk canvasOk insertOk : Bool) :
    Except CompositeError CompositeOutcome :=
  .ok
    (if ¬ screenshotOk then
      { success := false, compositeFileWritten := false, captureRecordInserted := false }
    else if ¬ cameraOk then
      { success := false, compositeFileWritten := false, captureRecordInserted := false }
    else if ¬ canvasOk then
      { success := false, compositeFileWritten := false, captureRecordInserted := false }
    else if ¬ insertOk then
      { success := false, compositeFileWritten := true, captureRecordInserted := false }
    else
      { success := true, compositeFileWritten := true, captureRecordInserted := true })

/-- The camera-overlay dimensions of the composite (lines 1793-1806):
bounding box a quarter of the screenshot in each direction (the source's
`0.25` is exactly `1/4`), then width-limited when the camera is
proportionally wider than the box, else height-limited. -/
def overlayDims (w h camW camH : ℚ) : ℚ × ℚ :=
  let maxWidth := w * (1 / 4)
  let maxHeight := h * (1 / 4)
  if camW / camH > maxWidth / maxHeight then
    (maxWidth, camH / camW * maxWidth)
  else
    (camW / camH * maxHeight, maxHeight)

/-- The overlay's top-left anchor (lines 1808-1812): bottom-right corner of
the screenshot with a fixed `20`px padding from the right and bottom edges. -/
def overlayPosition (w h : ℚ) (dims : ℚ × ℚ) : ℚ × ℚ :=
  (w - dims.1 - 20, h - dims.2 - 20)

end CaptureManager

/-! ### The in-memory/persisted counter invariant driving claim C1 -/

namespace IntervalManager

/-- While the registry holds an active entry for `id`, its counter is at
most `m` and agrees with the persisted row's counter. -/
def countSyncBounded (st : IMState) (id : String) (m : Nat) : Prop :=
  ∀ s, mapLookup st.activeSessions id = some s → s.status = SessionStatus.active →
    s.capture_count ≤ m ∧
    ∃ r, DatabaseManager.getSession st.db id = some r ∧
      r.capture_count = s.capture_count

end IntervalManager

/-! ### Concrete instances used by witnesses and counterexamples -/

namespace Examples

open IntervalManager

/-- A capped config: screenshot every 5s, at most 2 captures. -/
def cfgCapped : SessionConfig :=
  { capture_type := "screenshot", interval_seconds := 5, max_captures := some 2 }

/-- An uncapped screenshot config. -/
def cfgPlain : SessionConfig :=
  { capture_type := "screenshot", interval_seconds := 5 }

/-- The invalid-by-the-spec config of claim C3: a non-positive interval. -/
def cfgZeroInterval : SessionConfig :=
  { capture_type := "screenshot", interval_seconds := 0 }

/-- An uncapped composite config. -/
def cfgComposite : SessionConfig :=
  { capture_type := "composite", interval_seconds := 5 }

/-- A started capped session. -/
def stCapped : IMState :=
  match startSession (freshState []) cfgCapped "s" 0 with
  | .ok (_, st) => st
  | .error _ => freshState []

/-- The capped session after two successful ticks: at its cap, still active. -/
def stCappedTicked : IMState :=
  ticks (sessionDataOf cfgCapped "s") stCapped [(true, 1), (true, 2)]

/-- The registry entry of `stCappedTicked`. -/
def memCapped : MemSession :=
  { capture_type := "screenshot", interval_seconds := 5, max_captures := some 2
  , device_id := none, status := .active, capture_count := 2, start_time := 0 }

/-- The persisted row of `stCappedTicked`. -/
def rowCapped : SessionRow :=
  { session_id := "s", capture_type := "screenshot", interval_seconds := 5
  , max_captures := some 2, device_id := none, start_time := 0, end_time := none
  , status := .active, capture_count := 2 }

/-- A started uncapped session. -/
def stPlain : IMState :=
  match startSession (freshState []) cfgPlain "s" 0 with
  | .ok (_, st) => st
  | .error _ => freshState []

/-- `stPlain` after `pauseSession`. -/
def stPaused : IMState :=
  match pauseSession stPlain "s" with
  | .ok st => st
  | .error _ => stPlain

/-- The paused registry entry of `stPaused`. -/
def memPaused : MemSession :=
  { capture_type := "screenshot", interval_seconds := 5, max_captures := none
  , device_id := none, status := .paused, capture_count := 0, start_time := 0 }

/-- The active registry entry of `stPlain`. -/
def memPlain : MemSession :=
  { capture_type := "screenshot", interval_seconds := 5, max_captures := none
  , device_id := none, status := .active, capture_count := 0, start_time := 0 }

/-- `stPlain` after the caller explicitly calls `stopSession` at t = 9. -/
def stStopped : IMState :=
  match stopSession stPlain "s" 9 with
  | .ok st => st
  | .error _ => stPlain

/-- `stPaused` after `resumeSession`. -/
def stResumed : IMState :=
  match resumeSession stPaused "s" with
  | .ok st => st
  | .error _ => stPaused

/-- A started composite session. -/
def stComposite : IMState :=
  match startSession (freshState []) cfgComposite "s" 0 with
  | .ok (_, st) => st
  | .error _ => freshState []

/-- The active registry entry of `stComposite`. -/
def memComposite : MemSession :=
  { capture_type := "composite", interval_seconds := 5, max_captures := none
  , device_id := none, status := .active, capture_count := 0, start_time := 0 }

/-- A persisted session that was active when the process died. -/
def rowActive : SessionRow :=
  { session_id := "a", capture_type := "screenshot", interval_seconds := 5
  , max_captures := none, device_id := none, start_time := 0, end_time := none
  , status := .active, capture_count := 3 }

/-- A persisted session that was paused when the process died. -/
def rowPaused : SessionRow :=
  { session_id := "p", capture_type := "camera", interval_seconds := 7
  , max_captures := none, device_id := none, start_time := 0, end_time := none
  , status := .paused, capture_count := 1 }

/-- A persisted completed session, which recovery must skip. -/
def rowDone : SessionRow :=
  { session_id := "d", capture_type := "camera", interval_seconds := 9
  , max_captures := none, device_id := none, start_time := 0, end_time := some 8
  , status := .completed, capture_count := 4 }

/-- One startup recovery pass over the restart scenario of claim C7. -/
def stRecovered : IMState :=
  resumeActiveSessions (freshState [rowActive, rowPaused, rowDone])

/-- Two recovery passes, as the startup flow performs (once inside
`IntervalManager.initialize`, once more from `createWindow` after the
permission check, src/src/main/index.js lines 100-112). -/
def stRecoveredTwice : IMState := resumeActiveSessions stRecovered

end Examples

/-! ## Helper lemmas: JS maps -/

theorem mapLookup_set_self {α : Type} (m : List (String × α)) (k : String) (v : α) :
    mapLookup (mapSet m k v) k = some v := by
  induction m with
  | nil => simp [mapSet, mapLookup]
  | cons p rest ih =>
      by_cases h : p.1 == k
      · simp [mapSet, h, mapLookup]
      · simp [mapSet, h, mapLookup, ih]

theorem mapLookup_set_ne {α : Type} (m : List (String × α)) (k k' : String) (v : α)
    (h : k' ≠ k) : mapLookup (mapSet m k v) k' = mapLookup m k' := by
  induction m with
  | nil =>
      have : (k == k') = false := by simp [Ne.symm h]
      simp [mapSet, mapLookup, this]
  | cons p rest ih =>
      by_cases hp : p.1 == k
      · have hpk : p.1 = k := by simpa using hp
        have h1 : (k == k') = false := by simp [Ne.symm h]
        have h2 : (p.1 == k') = false := by simp [hpk, Ne.symm h]
        simp [mapSet, hp, mapLookup, h1, h2]
      · simp [mapSet, hp, mapLookup, ih]

theorem mapLookup_erase_self {α : Type} (m : List (String × α)) (k : String) :
    mapLookup (mapErase m k) k = none := by
  induction m with
  | nil => rfl
  | cons p rest ih =>
      by_cases h : p.1 == k
      · have hp : p.1 = k := by simpa using h
        have hf : (p.1 != k) = false := by simp [hp]
        simpa [mapErase, List.filter_cons, hf] using ih
      · have hp : ¬ p.1 = k := by simpa using h
        have ht : (p.1 != k) = true := by simp [hp]
        simpa [mapErase, List.filter_cons, ht, mapLookup, h] using ih

theorem mapLookup_mem_values {α : Type} (m : List (String × α)) (k : String) (v : α)
    (h : mapLookup m k = some v) : v ∈ m.map (fun p => p.2) := by
  induction m with
  | nil => simp [mapLookup] at h
  | cons p rest ih =>
      by_cases hp : p.1 == k
      · simp [mapLookup, hp] at h
        simp [h]
      · simp [mapLookup, hp] at h
        simp [ih h]

/-! ## Helper lemmas: the persisted table -/

namespace DatabaseManager

theorem getSession_updateSession_self (db : List SessionRow) (id : String)
    (f : SessionRow → SessionRow) (hf : ∀ r, (f r).session_id = r.session_id) :
    getSession (updateSession db id f) id = (getSession db id).map f := by
  induction db with
  | nil => rfl
  | cons r rest ih =>
      by_cases h : r.session_id == id
      · have hid : ((f r).session_id == id) = true := by
          rw [hf r]; exact h
        simp [updateSession, getSession, h, hid] at ih ⊢
      · have hid : ((if r.session_id == id then f r else r).session_id == id) = false := by
          simp [h]
        simp [updateSession, getSession, h] at ih ⊢
        simpa [updateSession] using ih

theorem getSession_append_fresh (db : List SessionRow) (row : SessionRow)
    (h : getSession db row.session_id = none) :
    getSession (db ++ [row]) row.session_id = some row := by
  induction db with
  | nil => simp [getSession]
  | cons r rest ih =>
      by_cases hr : r.session_id == row.session_id
      · simp [getSession, hr] at h
      · simp [getSession, hr] at h ⊢
        exact ih h

theorem getSession_none_forall (db : List SessionRow) (id : String)
    (h : getSession db id = none) : ∀ r ∈ db, r.session_id ≠ id := by
  induction db with
  | nil => simp
  | cons r rest ih =>
      by_cases hr : r.session_id == id
      · simp [getSession, hr] at h
      · simp [getSession, hr] at h
        intro x hx
        rcases List.mem_cons.mp hx with rfl | hx
        · simpa using hr
        · exact ih h x hx

theorem getSession_incrementSessionCaptures (db : List SessionRow) (id : String) :
    getSession (incrementSessionCaptures db id) id
      = (getSession db id).map (fun r => { r with capture_count := r.capture_count + 1 }) :=
  getSession_updateSession_self db id _ (fun _ => rfl)

theorem insertSession_ok {db : List SessionRow} {d : SessionData} {now : Nat}
    {db' : List SessionRow} (h : insertSession db d now = .ok db') :
    knownCaptureTypes.contains d.capture_type = true
    ∧ getSession db d.session_id = none
    ∧ db' = db ++ [rowOf d now] := by
  unfold insertSession at h
  split at h
  · exact Except.noConfusion h
  · split at h
    · exact Except.noConfusion h
    · rename_i h1 h2
      refine ⟨by simpa using h1, by simpa using h2, ?_⟩
      injection h with h
      exact h.symm

end DatabaseManager

/-! ## Helper lemmas: scheduler state components -/

namespace IntervalManager

@[simp] theorem clearTimer_activeSessions (st : IMState) (id : String) :
    (clearTimer st id).activeSessions = st.activeSessions := by
  unfold clearTimer
  cases mapLookup st.timers id <;> rfl

@[simp] theorem clearTimer_db (st : IMState) (id : String) :
    (clearTimer st id).db = st.db := by
  unfold clearTimer
  cases mapLookup st.timers id <;> rfl

@[simp] theorem clearTimer_timers_self (st : IMState) (id : String) :
    mapLookup (clearTimer st id).timers id = none := by
  unfold clearTimer
  cases h : mapLookup st.timers id with
  | none => exact h
  | some hdl => exact mapLookup_erase_self st.timers id

@[simp] theorem startSessionTimer_activeSessions (st : IMState) (id : String)
    (data : SessionData) :
    (startSessionTimer st id data).activeSessions = st.activeSessions := rfl

@[simp] theorem startSessionTimer_db (st : IMState) (id : String)
    (data : SessionData) :
    (startSessionTimer st id data).db = st.db := rfl

@[simp] theorem updateSessionCaptureCount_db (st : IMState) (id : String) :
    (updateSessionCaptureCount st id).db
      = DatabaseManager.incrementSessionCaptures st.db id := by
  simp only [updateSessionCaptureCount]
  split <;> rfl

theorem jsOrNull_pos {o : Option Nat} {m : Nat} (h : jsOrNull o = some m) :
    m ≠ 0 := by
  match o with
  | none => simp [jsOrNull] at h
  | some 0 => simp [jsOrNull] at h
  | some (n + 1) =>
      simp [jsOrNull] at h
      omega

theorem startedState_countSyncBounded (st0 : IMState) (config : SessionConfig)
    (sid : String) (now : Nat) (m : Nat)
    (hfresh : DatabaseManager.getSession st0.db sid = none) :
    countSyncBounded (startedState st0 config sid now) sid m := by
  intro s' hs' _
  simp only [startedState, startSessionTimer] at hs' ⊢
  rw [mapLookup_set_self] at hs'
  injection hs' with hs'
  subst hs'
  refine ⟨Nat.zero_le m, DatabaseManager.rowOf (sessionDataOf config sid) now, ?_, rfl⟩
  exact DatabaseManager.getSession_append_fresh st0.db _ hfresh

theorem tick_preserves_countSyncBounded (closure : SessionData) (m : Nat)
    (hm : closure.max_captures = some m) (hm0 : m ≠ 0)
    (st : IMState) (ok : Bool) (t : Nat)
    (hinv : countSyncBounded st closure.session_id m) :
    countSyncBounded (tick st closure ok t) closure.session_id m := by
  intro s' hs' hact'
  cases hlook : mapLookup st.activeSessions closure.session_id with
  | none =>
      simp only [tick, hlook, clearTimer_activeSessions] at hs' ⊢
      exact Option.noConfusion hs'
  | some s =>
      by_cases hstat : s.status = SessionStatus.active
      · cases hmax : maxReached closure.max_captures s.capture_count with
        | true =>
            simp only [tick, hlook, hstat, hmax, stopSession, ne_eq,
              not_true_eq_false, if_false, if_true] at hs' ⊢
            rw [clearTimer_activeSessions, mapLookup_erase_self] at hs'
            exact Option.noConfusion hs'
        | false =>
            obtain ⟨hbound, r, hr, hsync⟩ := hinv s hlook hstat
            have hlt : s.capture_count < m := by
              rw [hm] at hmax
              simp [maxReached, hm0] at hmax
              omega
            cases hthrow : performCaptureThrows closure.capture_type ok with
            | true =>
                simp only [tick, hlook, hstat, hmax, hthrow, ne_eq,
                  not_true_eq_false, if_false, Bool.false_eq_true, if_true] at hs' ⊢
                injection hs' with hs'
                subst hs'
                exact ⟨hbound, r, hr, hsync⟩
            | false =>
                simp only [tick, hlook, hstat, hmax, hthrow, ne_eq,
                  not_true_eq_false, if_false, Bool.false_eq_true, if_true,
                  updateSessionCaptureCount] at hs' ⊢
                rw [DatabaseManager.getSession_incrementSessionCaptures, hr] at hs'
                simp only [Option.map_some'] at hs'
                rw [mapLookup_set_self] at hs'
                injection hs' with hs'
                subst hs'
                constructor
                · show r.capture_count + 1 ≤ m
                  omega
                · refine ⟨{ r with capture_count := r.capture_count + 1 }, ?_, rfl⟩
                  simp [DatabaseManager.getSession_incrementSessionCaptures, hr]
      · simp only [tick, hlook, hstat, ne_eq, not_false_eq_true, if_true,
          clearTimer_activeSessions] at hs' ⊢
        injection hs' with hs'
        subst hs'
        exact absurd hact' hstat

theorem ticks_preserves_countSyncBounded (closure : SessionData) (m : Nat)
    (hm : closure.max_captures = some m) (hm0 : m ≠ 0) :
    ∀ (evs : List (Bool × Nat)) (st : IMState),
      countSyncBounded st closure.session_id m →
      countSyncBounded (ticks closure st evs) closure.session_id m := by
  intro evs
  induction evs with
  | nil => intro st h; exact h
  | cons e rest ih =>
      intro st h
      exact ih _ (tick_preserves_countSyncBounded closure m hm hm0 st e.1 e.2 h)

theorem resumeRow_frame (st : IMState) (row : SessionRow) (id : String)
    (hne : row.session_id ≠ id) :
    mapLookup (resumeRow st row).activeSessions id = mapLookup st.activeSessions id
    ∧ mapLookup (resumeRow st row).timers id = mapLookup st.timers id := by
  unfold resumeRow
  by_cases h : row.status = SessionStatus.active <;>
    simp [h, startSessionTimer, mapLookup_set_ne _ _ _ _ (Ne.symm hne)]

theorem foldl_resumeRow_frame (rows : List SessionRow) (st : IMState) (id : String)
    (hne : ∀ r ∈ rows, r.session_id ≠ id) :
    mapLookup (rows.foldl resumeRow st).activeSessions id
      = mapLookup st.activeSessions id
    ∧ mapLookup (rows.foldl resumeRow st).timers id = mapLookup st.timers id := by
  induction rows generalizing st with
  | nil => exact ⟨rfl, rfl⟩
  | cons row rest ih =>
      have h1 := resumeRow_frame st row id (hne row (by simp))
      have h2 := ih (resumeRow st row) (fun r hr => hne r (by simp [hr]))
      simp only [List.foldl_cons]
      exact ⟨h2.1.trans h1.1, h2.2.trans h1.2⟩

theorem foldl_resumeRow_live_mono (rows : List SessionRow) (st : IMState)
    (tmr : Timer) (h : tmr ∈ st.liveTimers) :
    tmr ∈ (rows.foldl resumeRow st).liveTimers := by
  induction rows generalizing st with
  | nil => exact h
  | cons row rest ih =>
      simp only [List.foldl_cons]
      refine ih (resumeRow st row) ?_
      unfold resumeRow
      by_cases hs : row.status = SessionStatus.active <;>
        simp [hs, startSessionTimer, h]

theorem foldl_resumeRow_live_src (rows : List SessionRow) (st : IMState)
    (tmr : Timer) (h : tmr ∈ (rows.foldl resumeRow st).liveTimers) :
    tmr ∈ st.liveTimers
    ∨ ∃ r, r ∈ rows ∧ r.status = SessionStatus.active
        ∧ tmr.session_id = r.session_id := by
  induction rows generalizing st with
  | nil => exact Or.inl h
  | cons row rest ih =>
      simp only [List.foldl_cons] at h
      rcases ih (resumeRow st row) h with h' | ⟨r, hr, ha, hid⟩
      · unfold resumeRow at h'
        by_cases hs : row.status = SessionStatus.active
        · simp [hs, startSessionTimer] at h'
          rcases h' with h' | h'
          · exact Or.inl h'
          · subst h'
            exact Or.inr ⟨row, by simp, hs, rfl⟩
        · simp [hs] at h'
          exact Or.inl h'
      · exact Or.inr ⟨r, by simp [hr], ha, hid⟩

theorem foldl_resumeRow_process (rows : List SessionRow) (st : IMState)
    (row : SessionRow)
    (hnd : (rows.map (fun r => r.session_id)).Nodup) (hmem : row ∈ rows) :
    mapLookup (rows.foldl resumeRow st).activeSessions row.session_id
      = some (memFromRow row)
    ∧ (row.status = SessionStatus.active →
        hasLiveTimerFor (rows.foldl resumeRow st) row.session_id = true)
    ∧ (row.status ≠ SessionStatus.active →
        mapLookup (rows.foldl resumeRow st).timers row.session_id
          = mapLookup st.timers row.session_id) := by
  induction rows generalizing st with
  | nil => cases hmem
  | cons head rest ih =>
      simp only [List.map_cons, List.nodup_cons] at hnd
      simp only [List.foldl_cons]
      rcases List.mem_cons.mp hmem with rfl | hmem'
      · have hrestne : ∀ r ∈ rest, r.session_id ≠ row.session_id := by
          intro r hr heq
          exact hnd.1 (heq ▸ List.mem_map_of_mem (fun r => r.session_id) hr)
        have frame := foldl_resumeRow_frame rest (resumeRow st row)
          row.session_id hrestne
        have hself : mapLookup (resumeRow st row).activeSessions row.session_id
            = some (memFromRow row) := by
          unfold resumeRow
          by_cases hs : row.status = SessionStatus.active <;>
            simp [hs, startSessionTimer, mapLookup_set_self, memFromRow]
        refine ⟨frame.1.trans hself, ?_, ?_⟩
        · intro hs
          have hlookT : mapLookup (rest.foldl resumeRow (resumeRow st row)).timers
              row.session_id = some st.nextHandle := by
            rw [frame.2]
            unfold resumeRow
            simp [hs, startSessionTimer, mapLookup_set_self]
          have hmemT : (⟨st.nextHandle, row.session_id, row.interval_seconds⟩ : Timer)
              ∈ (rest.foldl resumeRow (resumeRow st row)).liveTimers := by
            apply foldl_resumeRow_live_mono
            unfold resumeRow
            simp [hs, startSessionTimer]
          unfold hasLiveTimerFor
          rw [hlookT]
          simp only [List.any_eq_true]
          exact ⟨_, hmemT, by simp⟩
        · intro hs
          rw [frame.2]
          unfold resumeRow
          simp [hs]
      · have hne : head.session_id ≠ row.session_id := by
          intro heq
          exact hnd.1 (heq ▸ List.mem_map_of_mem (fun r => r.session_id) hmem')
        have ih' := ih (resumeRow st head) hnd.2 hmem'
        refine ⟨ih'.1, ih'.2.1, ?_⟩
        intro hs
        rw [ih'.2.2 hs]
        exact (resumeRow_frame st head row.session_id hne).2

theorem tick_stops_at_cap (closure : SessionData) (m : Nat)
    (hm : closure.max_captures = some m) (hm0 : m ≠ 0)
    (st : IMState) (s : MemSession) (r : SessionRow) (ok : Bool) (t : Nat)
    (hs : mapLookup st.activeSessions closure.session_id = some s)
    (hact : s.status = SessionStatus.active)
    (hr : DatabaseManager.getSession st.db closure.session_id = some r)
    (hge : m ≤ s.capture_count) :
    mapLookup (tick st closure ok t).activeSessions closure.session_id = none
    ∧ DatabaseManager.getSession (tick st closure ok t).db closure.session_id
        = some { r with status := SessionStatus.completed, end_time := some t } := by
  have hmax : maxReached closure.max_captures s.capture_count = true := by
    simp [maxReached, hm, hm0, hge]
  simp only [tick, hs, hact, hmax, ne_eq, not_true_eq_false, if_false, if_true,
    stopSession]
  constructor
  · rw [clearTimer_activeSessions, mapLookup_erase_self]
  · show DatabaseManager.getSession
      (DatabaseManager.updateSession (clearTimer st closure.session_id).db
        closure.session_id _) closure.session_id = _
    rw [clearTimer_db,
      DatabaseManager.getSession_updateSession_self st.db closure.session_id
        (fun r => { r with status := SessionStatus.completed, end_time := some t })
        (fun _ => rfl),
      hr]
    rfl

theorem startSession_ok {st0 : IMState} {config : SessionConfig} {sid : String}
    {now : Nat} {rid : String} {st1 : IMState}
    (h : startSession st0 config sid now = .ok (rid, st1)) :
    rid = sid ∧ st1 = startedState st0 config sid now
    ∧ knownCaptureTypes.contains config.capture_type = true
    ∧ DatabaseManager.getSession st0.db sid = none := by
  unfold startSession at h
  cases hins : DatabaseManager.insertSession st0.db (sessionDataOf config sid) now with
  | error e => simp [hins] at h
  | ok db' =>
      obtain ⟨hc, hn, hdb⟩ := DatabaseManager.insertSession_ok hins
      simp only [hins, Except.ok.injEq, Prod.mk.injEq] at h
      obtain ⟨h1, h2⟩ := h
      subst hdb
      refine ⟨h1.symm, ?_, hc, hn⟩
      rw [← h2]
      rfl

end IntervalManager

/-! ## The claims -/

open IntervalManager CaptureManager in
/-- C1: for every session with maxCaptures set, the tick handler checks the
in-memory captureCount against maxCaptures at the start of each tick,
before capturing: if captureCount ≥ maxCaptures it stops the session —
moving it to the terminal persisted status `completed`, with the row's
counter untouched — and returns without capturing; consequently, over any
sequence of tick firings of a session started with cap `m`, the counter
never exceeds `m` while the registry still shows the session active. -/
theorem C1_maxCaptures_checked_and_never_exceeded
    (st0 : IMState) (config : SessionConfig) (sid : String) (now : Nat)
    (st1 : IMState) (m : Nat) (evs : List (Bool × Nat)) (s' : MemSession)
    (st : IMState) (s : MemSession) (r : SessionRow) (ok : Bool) (t : Nat)
    (hstart : startSession st0 config sid now = .ok (sid, st1))
    (hm : jsOrNull config.max_captures = some m)
    (hs' : mapLookup (ticks (sessionDataOf config sid) st1 evs).activeSessions sid
             = some s')
    (hact' : s'.status = SessionStatus.active)
    (hs : mapLookup st.activeSessions sid = some s)
    (hact : s.status = SessionStatus.active)
    (hr : DatabaseManager.getSession st.db sid = some r)
    (hge : m ≤ s.capture_count) :
    s'.capture_count ≤ m
    ∧ mapLookup (tick st (sessionDataOf config sid) ok t).activeSessions sid = none
    ∧ DatabaseManager.getSession (tick st (sessionDataOf config sid) ok t).db sid
        = some { r with status := SessionStatus.completed, end_time := some t } := by
  have hm0 : m ≠ 0 := jsOrNull_pos hm
  have hmc : (sessionDataOf config sid).max_captures = some m := hm
  obtain ⟨-, hst1, -, hfresh⟩ := startSession_ok hstart
  subst hst1
  obtain ⟨hb, -⟩ :=
    ticks_preserves_countSyncBounded (sessionDataOf config sid) m hmc hm0 evs _
      (startedState_countSyncBounded st0 config sid now m hfresh) s' hs' hact'
  obtain ⟨h1, h2⟩ :=
    tick_stops_at_cap (sessionDataOf config sid) m hmc hm0 st s r ok t hs hact hr hge
  exact ⟨hb, h1, h2⟩

open IntervalManager Examples in
/-- Witness for C1: a capped (max 2) screenshot session after two
successful ticks sits at its cap while active, and the next tick removes
it from the registry and persists `completed` without touching the
counter. -/
theorem C1_maxCaptures_checked_and_never_exceeded_witness :
    memCapped.capture_count ≤ 2
    ∧ mapLookup (tick stCappedTicked (sessionDataOf cfgCapped "s") true 3).activeSessions "s"
        = none
    ∧ DatabaseManager.getSession (tick stCappedTicked (sessionDataOf cfgCapped "s") true 3).db "s"
        = some { rowCapped with status := SessionStatus.completed, end_time := some 3 } :=
  C1_maxCaptures_checked_and_never_exceeded (freshState []) cfgCapped "s" 0
    stCapped 2 [(true, 1), (true, 2)] memCapped stCappedTicked memCapped rowCapped
    true 3 rfl (by decide) (by decide) (by decide) (by decide) (by decide)
    (by decide) (by decide)

open IntervalManager in
/-- C2 counterexample: explicitly stopping a running session — a stop not
induced by maxCaptures — persists status `completed` with endTime, not the
`cancelled` the claim requires for a caller-initiated stop. -/
theorem C2_stopSession_counterexample :
    (stopSession Examples.stPlain "s" 9).map
        (fun st' => (DatabaseManager.getSession st'.db "s").map
          (fun r => (r.status, r.end_time)))
      = .ok (some (SessionStatus.completed, some 9))
    ∧ SessionStatus.completed ≠ SessionStatus.cancelled :=
  ⟨rfl, by decide⟩

open IntervalManager in
/-- C2 (amended): `stopSession(id)` fails with SessionNotFoundError when
`id` is unknown; otherwise it cancels the timer, removes the session from
the in-memory registry, and persists endTime = now with status `completed`
unconditionally — both for a maxCaptures-induced stop and for an explicit
caller stop (the status `cancelled` is never written). -/
theorem C2_stopSession_always_completes
    (st : IMState) (id : String) (now : Nat) (s : MemSession) (st' : IMState)
    (h : Nat) :
    (mapLookup st.activeSessions id = none →
      stopSession st id now = .error .sessionNotFound)
    ∧ (mapLookup st.activeSessions id = some s →
       stopSession st id now = .ok st' →
        mapLookup st'.activeSessions id = none
        ∧ mapLookup st'.timers id = none
        ∧ (mapLookup st.timers id = some h →
            st'.liveTimers.all (fun tmr => tmr.handle != h) = true)
        ∧ DatabaseManager.getSession st'.db id
            = (DatabaseManager.getSession st.db id).map
                (fun r => { r with status := SessionStatus.completed
                                 , end_time := some now })) := by
  constructor
  · intro hnone
    simp [stopSession, hnone]
  · intro hsome hok
    simp only [stopSession, hsome] at hok
    injection hok with hok
    subst hok
    refine ⟨?_, ?_, ?_, ?_⟩
    · show mapLookup (mapErase (clearTimer st id).activeSessions id) id = none
      rw [clearTimer_activeSessions]
      exact mapLookup_erase_self _ _
    · exact clearTimer_timers_self st id
    · intro hh
      show ((clearTimer st id).liveTimers.all (fun tmr => tmr.handle != h)) = true
      unfold clearTimer
      rw [hh]
      simp only [List.all_eq_true]
      intro tmr hmem
      exact (List.mem_filter.mp hmem).2
    · show DatabaseManager.getSession
          (DatabaseManager.updateSession (clearTimer st id).db id _) id = _
      rw [clearTimer_db,
        DatabaseManager.getSession_updateSession_self st.db id
          (fun r => { r with status := SessionStatus.completed, end_time := some now })
          (fun _ => rfl)]

open IntervalManager Examples in
/-- Witness for C2 at a started session holding timer handle 0: the
explicit stop empties the registry entry and the timer slot, cancels the
live timer, and persists `completed` with endTime 9. -/
theorem C2_stopSession_always_completes_witness :
    (mapLookup stPlain.activeSessions "s" = none →
      stopSession stPlain "s" 9 = .error .sessionNotFound)
    ∧ (mapLookup stPlain.activeSessions "s" = some memPlain →
       stopSession stPlain "s" 9 = .ok stStopped →
        mapLookup stStopped.activeSessions "s" = none
        ∧ mapLookup stStopped.timers "s" = none
        ∧ (mapLookup stPlain.timers "s" = some 0 →
            stStopped.liveTimers.all (fun tmr => tmr.handle != 0) = true)
        ∧ DatabaseManager.getSession stStopped.db "s"
            = (DatabaseManager.getSession stPlain.db "s").map
                (fun r => { r with status := SessionStatus.completed
                                 , end_time := some 9 })) :=
  C2_stopSession_always_completes stPlain "s" 9 memPlain stStopped 0

open IntervalManager in
/-- C3 counterexample: a config with intervalSeconds = 0 — which the claim
says must fail with ValidationError and persist nothing — is accepted by
`startSession`, which persists an active session for it and returns the
id. -/
theorem C3_startSession_counterexample :
    startSession (freshState []) Examples.cfgZeroInterval "s" 0
      = .ok ("s", startedState (freshState []) Examples.cfgZeroInterval "s" 0)
    ∧ DatabaseManager.getSession
        (startedState (freshState []) Examples.cfgZeroInterval "s" 0).db "s"
      = some (DatabaseManager.rowOf (sessionDataOf Examples.cfgZeroInterval "s") 0)
    ∧ Examples.cfgZeroInterval.interval_seconds ≤ 0 :=
  ⟨rfl, by decide, by decide⟩

open IntervalManager in
/-- C3 (amended): `startSession` performs no validation of its own: a
non-positive intervalSeconds is accepted, and a config with a known
captureType — whatever its intervalSeconds — persists a new session with
status `active` and captureCount 0 and returns its id; only an unknown
captureType makes the call fail, via the Store's CHECK constraint raised
inside the INSERT (not a ValidationError), with no session created or
persisted. -/
theorem C3_startSession_no_validation
    (st0 : IMState) (config : SessionConfig) (sid : String) (now : Nat) :
    (knownCaptureTypes.contains config.capture_type = false →
      startSession st0 config sid now = .error .checkConstraint)
    ∧ (knownCaptureTypes.contains config.capture_type = true →
       DatabaseManager.getSession st0.db sid = none →
        startSession st0 config sid now = .ok (sid, startedState st0 config sid now)
        ∧ DatabaseManager.getSession (startedState st0 config sid now).db sid
            = some (DatabaseManager.rowOf (sessionDataOf config sid) now)
        ∧ (DatabaseManager.rowOf (sessionDataOf config sid) now).status
            = SessionStatus.active
        ∧ (DatabaseManager.rowOf (sessionDataOf config sid) now).capture_count = 0
        ∧ mapLookup (startedState st0 config sid now).activeSessions sid
            = some { capture_type := config.capture_type
                   , interval_seconds := config.interval_seconds
                   , max_captures := jsOrNull config.max_captures
                   , device_id := config.device_id
                   , status := SessionStatus.active
                   , capture_count := 0
                   , start_time := now }) := by
  constructor
  · intro hbad
    have hbad' : config.capture_type ∉ knownCaptureTypes := by
      simpa using hbad
    simp [startSession, DatabaseManager.insertSession, sessionDataOf, hbad']
  · intro hgood hfresh
    have hgood' : (sessionDataOf config sid).capture_type ∈ knownCaptureTypes := by
      simpa [sessionDataOf] using hgood
    have hfresh' : DatabaseManager.getSession st0.db
        (sessionDataOf config sid).session_id = none := hfresh
    have hins : DatabaseManager.insertSession st0.db (sessionDataOf config sid) now
        = .ok (st0.db ++ [DatabaseManager.rowOf (sessionDataOf config sid) now]) := by
      simp [DatabaseManager.insertSession, hgood', hfresh']
    refine ⟨?_, ?_, rfl, rfl, ?_⟩
    · simp only [startSession, hins]
      rfl
    · exact DatabaseManager.getSession_append_fresh st0.db _ hfresh
    · exact mapLookup_set_self _ _ _

open IntervalManager Examples in
/-- Witness for C3 on a valid config against an empty store: the start
succeeds and the persisted row is active with a zero counter. -/
theorem C3_startSession_no_validation_witness :
    (knownCaptureTypes.contains cfgPlain.capture_type = false →
      startSession (freshState []) cfgPlain "s" 0 = .error .checkConstraint)
    ∧ (knownCaptureTypes.contains cfgPlain.capture_type = true →
       DatabaseManager.getSession (freshState []).db "s" = none →
        startSession (freshState []) cfgPlain "s" 0
            = .ok ("s", startedState (freshState []) cfgPlain "s" 0)
        ∧ DatabaseManager.getSession (startedState (freshState []) cfgPlain "s" 0).db "s"
            = some (DatabaseManager.rowOf (sessionDataOf cfgPlain "s") 0)
        ∧ (DatabaseManager.rowOf (sessionDataOf cfgPlain "s") 0).status
            = SessionStatus.active
        ∧ (DatabaseManager.rowOf (sessionDataOf cfgPlain "s") 0).capture_count = 0
        ∧ mapLookup (startedState (freshState []) cfgPlain "s" 0).activeSessions "s"
            = some { capture_type := cfgPlain.capture_type
                   , interval_seconds := cfgPlain.interval_seconds
                   , max_captures := jsOrNull cfgPlain.max_captures
                   , device_id := cfgPlain.device_id
                   , status := SessionStatus.active
                   , capture_count := 0
                   , start_time := 0 }) :=
  C3_startSession_no_validation (freshState []) cfgPlain "s" 0

open IntervalManager Examples in
/-- C4 counterexample: a composite tick whose capture failed — the routine
returns `{ success: false }` without throwing — still increments the
persisted captureCount from 0 to 1, where the claim demands it stay
unchanged. -/
theorem C4_increment_counterexample :
    (DatabaseManager.getSession
        (tick stComposite (sessionDataOf cfgComposite "s") false 1).db "s").map
          (fun r => r.capture_count) = some 1
    ∧ (DatabaseManager.getSession stComposite.db "s").map
          (fun r => r.capture_count) = some 0
    ∧ performCaptureThrows "composite" false = false := by
  decide

open IntervalManager in
/-- C4 (amended): the persisted captureCount is incremented exactly when
the tick's dispatched capture does not throw.  For captureType screenshot,
camera and both, a capture failure throws, so the tick logs and leaves the
whole state — count and session — unchanged; a non-throwing capture
increments the persisted count by one.  But for captureType composite the
capture routine reports failure through a returned `{ success: false }`
object instead of throwing, so the tick increments the persisted count
even when the composite capture failed. -/
theorem C4_increment_follows_throwing
    (st : IMState) (closure : SessionData) (t : Nat) (s : MemSession) :
    ((closure.capture_type = "screenshot" ∨ closure.capture_type = "camera"
        ∨ closure.capture_type = "both") →
      mapLookup st.activeSessions closure.session_id = some s →
      s.status = SessionStatus.active →
      maxReached closure.max_captures s.capture_count = false →
      tick st closure false t = st)
    ∧ (mapLookup st.activeSessions closure.session_id = some s →
       s.status = SessionStatus.active →
       maxReached closure.max_captures s.capture_count = false →
       performCaptureThrows closure.capture_type true = false →
       DatabaseManager.getSession (tick st closure true t).db closure.session_id
         = (DatabaseManager.getSession st.db closure.session_id).map
             (fun r => { r with capture_count := r.capture_count + 1 }))
    ∧ (closure.capture_type = "composite" →
       mapLookup st.activeSessions closure.session_id = some s →
       s.status = SessionStatus.active →
       maxReached closure.max_captures s.capture_count = false →
       DatabaseManager.getSession (tick st closure false t).db closure.session_id
         = (DatabaseManager.getSession st.db closure.session_id).map
             (fun r => { r with capture_count := r.capture_count + 1 })) := by
  refine ⟨?_, ?_, ?_⟩
  · intro hct hs hstat hmax
    have hthrow : performCaptureThrows closure.capture_type false = true := by
      rcases hct with hct | hct | hct <;> rw [hct] <;> rfl
    simp [tick, hs, hstat, hmax, hthrow]
  · intro hs hstat hmax hthrow
    have : tick st closure true t = updateSessionCaptureCount st closure.session_id := by
      simp [tick, hs, hstat, hmax, hthrow]
    rw [this, updateSessionCaptureCount_db,
      DatabaseManager.getSession_incrementSessionCaptures]
  · intro hct hs hstat hmax
    have hthrow : performCaptureThrows closure.capture_type false = false := by
      rw [hct]; rfl
    have : tick st closure false t = updateSessionCaptureCount st closure.session_id := by
      simp [tick, hs, hstat, hmax, hthrow]
    rw [this, updateSessionCaptureCount_db,
      DatabaseManager.getSession_incrementSessionCaptures]

open IntervalManager Examples in
/-- Witness for C4 at a started composite session: the screenshot/camera/
both conjunct is vacuous for this capture type, a successful tick
increments the counter, and a failed composite tick increments it too. -/
theorem C4_increment_follows_throwing_witness :
    ((sessionDataOf cfgComposite "s").capture_type = "screenshot"
        ∨ (sessionDataOf cfgComposite "s").capture_type = "camera"
        ∨ (sessionDataOf cfgComposite "s").capture_type = "both" →
      mapLookup stComposite.activeSessions "s" = some memComposite →
      memComposite.status = SessionStatus.active →
      maxReached (sessionDataOf cfgComposite "s").max_captures
          memComposite.capture_count = false →
      tick stComposite (sessionDataOf cfgComposite "s") false 1 = stComposite)
    ∧ (mapLookup stComposite.activeSessions "s" = some memComposite →
       memComposite.status = SessionStatus.active →
       maxReached (sessionDataOf cfgComposite "s").max_captures
           memComposite.capture_count = false →
       performCaptureThrows (sessionDataOf cfgComposite "s").capture_type true = false →
       DatabaseManager.getSession
           (tick stComposite (sessionDataOf cfgComposite "s") true 1).db "s"
         = (DatabaseManager.getSession stComposite.db "s").map
             (fun r => { r with capture_count := r.capture_count + 1 }))
    ∧ ((sessionDataOf cfgComposite "s").capture_type = "composite" →
       mapLookup stComposite.activeSessions "s" = some memComposite →
       memComposite.status = SessionStatus.active →
       maxReached (sessionDataOf cfgComposite "s").max_captures
           memComposite.capture_count = false →
       DatabaseManager.getSession
           (tick stComposite (sessionDataOf cfgComposite "s") false 1).db "s"
         = (DatabaseManager.getSession stComposite.db "s").map
             (fun r => { r with capture_count := r.capture_count + 1 })) :=
  C4_increment_follows_throwing stComposite (sessionDataOf cfgComposite "s") 1
    memComposite

open CaptureManager in
/-- C5 counterexample: when the camera sub-capture fails, nothing is
persisted, but `takeCompositeCapture` does not raise a CompositeError to
its caller — its outer catch turns the internal throw into a returned
`{ success: false }` object. -/
theorem C5_composite_counterexample :
    takeCompositeCapture true false true true
      = .ok { success := false, compositeFileWritten := false
            , captureRecordInserted := false }
    ∧ takeCompositeCapture true false true true
        ≠ .error CompositeError.compositeError :=
  ⟨rfl, fun hx => Except.noConfusion hx⟩

open CaptureManager in
/-- C5 (amended): when the composite's screenshot sub-capture or camera
sub-capture fails, the whole operation fails and nothing is persisted — no
composite image file is written and no CaptureRecord is inserted — but the
failure is reported to the caller as a returned `{ success: false }`
result, not as a raised CompositeError. -/
theorem C5_composite_failure_persists_nothing
    (screenshotOk cameraOk canvasOk insertOk : Bool)
    (h : screenshotOk = false ∨ cameraOk = false) :
    takeCompositeCapture screenshotOk cameraOk canvasOk insertOk
      = .ok { success := false, compositeFileWritten := false
            , captureRecordInserted := false } := by
  rcases h with rfl | rfl
  · rfl
  · cases screenshotOk <;> rfl

open CaptureManager in
/-- Witness for C5: a failed camera sub-capture alongside an otherwise
healthy pipeline. -/
theorem C5_composite_failure_persists_nothing_witness :
    takeCompositeCapture true false true true
      = .ok { success := false, compositeFileWritten := false
            , captureRecordInserted := false } :=
  C5_composite_failure_persists_nothing true false true true (Or.inr rfl)

open CaptureManager in
/-- C6: `captureBoth` invokes the two primitives under separate catches:
it throws only when both primitives failed; when exactly one succeeds it
returns normally with the succeeding modality's payload as the primary
result and null recorded for the failed modality (and with both succeeding
the screenshot is primary). -/
theorem C6_captureBoth_tolerates_single_failure (v w : Nat) :
    captureBoth none none = .error BothError.bothFailed
    ∧ captureBoth (some v) none
        = .ok { screenshot := some v, camera := none, primary := v }
    ∧ captureBoth none (some w)
        = .ok { screenshot := none, camera := some w, primary := w }
    ∧ captureBoth (some v) (some w)
        = .ok { screenshot := some v, camera := some w, primary := v } := by
  refine ⟨rfl, ?_, ?_, ?_⟩ <;> simp [captureBoth]

open CaptureManager in
/-- C8: for positive screenshot dimensions W×H and camera dimensions
camW×camH, the compositor's overlay is width-limited to 0.25·W exactly when
camW/camH exceeds (0.25·W)/(0.25·H) and otherwise height-limited to
0.25·H, preserving the camera aspect ratio; hence it always fits in the
0.25·W × 0.25·H box, and its bottom-right corner lands exactly 20px from
the screenshot's right and bottom edges. -/
theorem C8_composite_overlay_geometry (w h camW camH : ℚ)
    (hw : 0 < w) (hh : 0 < h) (hcw : 0 < camW) (hch : 0 < camH) :
    (camW / camH > w * (1 / 4) / (h * (1 / 4)) →
      (overlayDims w h camW camH).1 = w * (1 / 4)
      ∧ (overlayDims w h camW camH).2 = camH / camW * (w * (1 / 4)))
    ∧ (¬ camW / camH > w * (1 / 4) / (h * (1 / 4)) →
      (overlayDims w h camW camH).2 = h * (1 / 4)
      ∧ (overlayDims w h camW camH).1 = camW / camH * (h * (1 / 4)))
    ∧ (overlayDims w h camW camH).1 ≤ w * (1 / 4)
    ∧ (overlayDims w h camW camH).2 ≤ h * (1 / 4)
    ∧ (overlayPosition w h (overlayDims w h camW camH)).1
        + (overlayDims w h camW camH).1 = w - 20
    ∧ (overlayPosition w h (overlayDims w h camW camH)).2
        + (overlayDims w h camW camH).2 = h - 20 := by
  have hw4 : (0 : ℚ) < w * (1 / 4) := by positivity
  have hh4 : (0 : ℚ) < h * (1 / 4) := by positivity
  by_cases hc : camW / camH > w * (1 / 4) / (h * (1 / 4))
  · have hdims : overlayDims w h camW camH
        = (w * (1 / 4), camH / camW * (w * (1 / 4))) := by
      simp only [overlayDims]
      rw [if_pos hc]
    have hcross : w * (1 / 4) * camH < camW * (h * (1 / 4)) :=
      (div_lt_div_iff₀ hh4 hch).mp hc
    have hht : camH / camW * (w * (1 / 4)) ≤ h * (1 / 4) := by
      rw [div_mul_eq_mul_div, div_le_iff₀ hcw]
      nlinarith
    refine ⟨fun _ => ⟨by rw [hdims], by rw [hdims]⟩, fun hnc => absurd hc hnc,
      ?_, ?_, ?_, ?_⟩
    · rw [hdims]
    · rw [hdims]; exact hht
    · rw [hdims]
      show w - w * (1 / 4) - 20 + w * (1 / 4) = w - 20
      ring
    · rw [hdims]
      show h - camH / camW * (w * (1 / 4)) - 20 + camH / camW * (w * (1 / 4)) = h - 20
      ring
  · have hdims : overlayDims w h camW camH
        = (camW / camH * (h * (1 / 4)), h * (1 / 4)) := by
      simp only [overlayDims]
      rw [if_neg hc]
    have hle : camW / camH ≤ w * (1 / 4) / (h * (1 / 4)) := not_lt.mp hc
    have hcross : camW * (h * (1 / 4)) ≤ w * (1 / 4) * camH :=
      (div_le_div_iff₀ hch hh4).mp hle
    have hwt : camW / camH * (h * (1 / 4)) ≤ w * (1 / 4) := by
      rw [div_mul_eq_mul_div, div_le_iff₀ hch]
      nlinarith
    refine ⟨fun hcc => absurd hcc hc, fun _ => ⟨by rw [hdims], by rw [hdims]⟩,
      ?_, ?_, ?_, ?_⟩
    · rw [hdims]; exact hwt
    · rw [hdims]
    · rw [hdims]
      show w - camW / camH * (h * (1 / 4)) - 20 + camW / camH * (h * (1 / 4)) = w - 20
      ring
    · rw [hdims]
      show h - h * (1 / 4) - 20 + h * (1 / 4) = h - 20
      ring

open CaptureManager in
/-- Witness for C8: a 1920×1080 screenshot with a 1280×720 camera image:
the overlay is height-limited to 480×270 and anchored at (1420, 790), i.e.
20px from the right and bottom edges. -/
theorem C8_composite_overlay_geometry_witness :
    ((1280 : ℚ) / 720 > 1920 * (1 / 4) / (1080 * (1 / 4)) →
      (overlayDims 1920 1080 1280 720).1 = 1920 * (1 / 4)
      ∧ (overlayDims 1920 1080 1280 720).2 = 720 / 1280 * (1920 * (1 / 4)))
    ∧ (¬ (1280 : ℚ) / 720 > 1920 * (1 / 4) / (1080 * (1 / 4)) →
      (overlayDims 1920 1080 1280 720).2 = 1080 * (1 / 4)
      ∧ (overlayDims 1920 1080 1280 720).1 = 1280 / 720 * (1080 * (1 / 4)))
    ∧ (overlayDims 1920 1080 1280 720).1 ≤ 1920 * (1 / 4)
    ∧ (overlayDims 1920 1080 1280 720).2 ≤ 1080 * (1 / 4)
    ∧ (overlayPosition 1920 1080 (overlayDims 1920 1080 1280 720)).1
        + (overlayDims 1920 1080 1280 720).1 = 1920 - 20
    ∧ (overlayPosition 1920 1080 (overlayDims 1920 1080 1280 720)).2
        + (overlayDims 1920 1080 1280 720).2 = 1080 - 20 :=
  C8_composite_overlay_geometry 1920 1080 1280 720 (by norm_num) (by norm_num)
    (by norm_num) (by norm_num)

open IntervalManager in
/-- C7: starting from a fresh process (empty registry) over a persisted
table with unique session ids, `resumeActiveSessions()` registers exactly
the rows whose status is active or paused — each with its persisted
captureCount, via `memFromRow` — arms a live timer only for the active
ones, leaves paused ones registered with no stored and no live timer, skips
terminal rows, touches no unknown id, and both recovered kinds appear in
`getActiveSessions()`. -/
theorem C7_resumeActiveSessions_recovery
    (db : List SessionRow) (row : SessionRow) (id : String)
    (hnd : (db.map (fun r => r.session_id)).Nodup)
    (hrow : row ∈ db) :
    ((row.status = SessionStatus.active ∨ row.status = SessionStatus.paused) →
        mapLookup (resumeActiveSessions (freshState db)).activeSessions
            row.session_id = some (memFromRow row)
        ∧ memFromRow row ∈ getActiveSessions (resumeActiveSessions (freshState db)))
    ∧ (row.status = SessionStatus.active →
        hasLiveTimerFor (resumeActiveSessions (freshState db)) row.session_id = true)
    ∧ (row.status = SessionStatus.paused →
        mapLookup (resumeActiveSessions (freshState db)).timers row.session_id = none
        ∧ (resumeActiveSessions (freshState db)).liveTimers.all
            (fun tmr => tmr.session_id != row.session_id) = true)
    ∧ ((row.status = SessionStatus.completed ∨ row.status = SessionStatus.cancelled) →
        mapLookup (resumeActiveSessions (freshState db)).activeSessions
          row.session_id = none)
    ∧ (DatabaseManager.getSession db id = none →
        mapLookup (resumeActiveSessions (freshState db)).activeSessions id = none) := by
  have hres : resumeActiveSessions (freshState db)
      = (db.filter (fun r => r.status = SessionStatus.active
          ∨ r.status = SessionStatus.paused)).foldl resumeRow (freshState db) := rfl
  have hndF : ((db.filter (fun r => r.status = SessionStatus.active
      ∨ r.status = SessionStatus.paused)).map (fun r => r.session_id)).Nodup :=
    hnd.sublist (List.Sublist.map _ (List.filter_sublist db))
  have hinj := List.inj_on_of_nodup_map hnd
  refine ⟨?_, ?_, ?_, ?_, ?_⟩
  · intro hst
    have hmemF : row ∈ db.filter (fun r => r.status = SessionStatus.active
        ∨ r.status = SessionStatus.paused) :=
      List.mem_filter.mpr ⟨hrow, by simp [hst]⟩
    have hp := foldl_resumeRow_process _ (freshState db) row hndF hmemF
    rw [hres]
    exact ⟨hp.1, mapLookup_mem_values _ _ _ hp.1⟩
  · intro hst
    have hmemF : row ∈ db.filter (fun r => r.status = SessionStatus.active
        ∨ r.status = SessionStatus.paused) :=
      List.mem_filter.mpr ⟨hrow, by simp [hst]⟩
    have hp := foldl_resumeRow_process _ (freshState db) row hndF hmemF
    rw [hres]
    exact hp.2.1 hst
  · intro hst
    have hmemF : row ∈ db.filter (fun r => r.status = SessionStatus.active
        ∨ r.status = SessionStatus.paused) :=
      List.mem_filter.mpr ⟨hrow, by simp [hst]⟩
    have hp := foldl_resumeRow_process _ (freshState db) row hndF hmemF
    constructor
    · rw [hres]
      exact hp.2.2 (by simp [hst])
    · rw [hres]
      simp only [List.all_eq_true]
      intro tmr hmem
      rcases foldl_resumeRow_live_src _ _ _ hmem with hl | ⟨r, hrF, hact, hid⟩
      · simp [freshState] at hl
      · have hrdb : r ∈ db := (List.mem_filter.mp hrF).1
        have : tmr.session_id ≠ row.session_id := by
          intro heq
          have hrr : r = row := hinj hrdb hrow (by rw [← hid, heq])
          rw [hrr, hst] at hact
          exact SessionStatus.noConfusion hact
        simpa using this
  · intro hst
    have hne : ∀ r ∈ db.filter (fun r => r.status = SessionStatus.active
        ∨ r.status = SessionStatus.paused), r.session_id ≠ row.session_id := by
      intro r hrF heq
      have hrdb : r ∈ db := (List.mem_filter.mp hrF).1
      have hrr : r = row := hinj hrdb hrow heq
      have := (List.mem_filter.mp hrF).2
      rw [hrr] at this
      rcases hst with hst | hst <;> simp [hst] at this
    rw [hres]
    exact (foldl_resumeRow_frame _ _ _ hne).1
  · intro hid
    have hne : ∀ r ∈ db.filter (fun r => r.status = SessionStatus.active
        ∨ r.status = SessionStatus.paused), r.session_id ≠ id := by
      intro r hrF
      exact DatabaseManager.getSession_none_forall db id hid r
        (List.mem_filter.mp hrF).1
    rw [hres]
    exact (foldl_resumeRow_frame _ _ _ hne).1

open IntervalManager Examples in
/-- Witness for C7: the restart scenario with one active, one paused and
one completed persisted session, probing the paused row and an unknown
id. -/
theorem C7_resumeActiveSessions_recovery_witness :
    ((rowPaused.status = SessionStatus.active ∨ rowPaused.status = SessionStatus.paused) →
        mapLookup (resumeActiveSessions (freshState [rowActive, rowPaused, rowDone])).activeSessions
            rowPaused.session_id = some (memFromRow rowPaused)
        ∧ memFromRow rowPaused
            ∈ getActiveSessions (resumeActiveSessions (freshState [rowActive, rowPaused, rowDone])))
    ∧ (rowPaused.status = SessionStatus.active →
        hasLiveTimerFor (resumeActiveSessions (freshState [rowActive, rowPaused, rowDone]))
          rowPaused.session_id = true)
    ∧ (rowPaused.status = SessionStatus.paused →
        mapLookup (resumeActiveSessions (freshState [rowActive, rowPaused, rowDone])).timers
            rowPaused.session_id = none
        ∧ (resumeActiveSessions (freshState [rowActive, rowPaused, rowDone])).liveTimers.all
            (fun tmr => tmr.session_id != rowPaused.session_id) = true)
    ∧ ((rowPaused.status = SessionStatus.completed ∨ rowPaused.status = SessionStatus.cancelled) →
        mapLookup (resumeActiveSessions (freshState [rowActive, rowPaused, rowDone])).activeSessions
          rowPaused.session_id = none)
    ∧ (DatabaseManager.getSession [rowActive, rowPaused, rowDone] "nope" = none →
        mapLookup (resumeActiveSessions (freshState [rowActive, rowPaused, rowDone])).activeSessions
          "nope" = none) :=
  C7_resumeActiveSessions_recovery [rowActive, rowPaused, rowDone] rowPaused "nope"
    (by decide) (by decide)

open IntervalManager in
/-- C9: `resumeSession(id)` fails with SessionNotFoundError when the id is
not in the in-memory registry, fails with StateError when the session's
status is not paused, and otherwise sets status active in memory and in
the Store and re-arms a live recurring timer at the session's original
intervalSeconds. -/
theorem C9_resumeSession_behavior
    (st : IMState) (id : String) (s : MemSession) (st' : IMState) :
    (mapLookup st.activeSessions id = none →
      resumeSession st id = .error .sessionNotFound)
    ∧ (mapLookup st.activeSessions id = some s →
       s.status ≠ SessionStatus.paused →
      resumeSession st id = .error .stateError)
    ∧ (mapLookup st.activeSessions id = some s →
       s.status = SessionStatus.paused →
       resumeSession st id = .ok st' →
        mapLookup st'.activeSessions id
            = some { s with status := SessionStatus.active }
        ∧ DatabaseManager.getSession st'.db id
            = (DatabaseManager.getSession st.db id).map
                (fun r => { r with status := SessionStatus.active })
        ∧ hasLiveTimerAt st' id s.interval_seconds = true) := by
  refine ⟨?_, ?_, ?_⟩
  · intro hnone
    simp [resumeSession, hnone]
  · intro hsome hnp
    simp [resumeSession, hsome, hnp]
  · intro hsome hp hok
    simp only [resumeSession, hsome] at hok
    rw [if_neg (by simp [hp])] at hok
    injection hok with hok
    subst hok
    refine ⟨mapLookup_set_self _ _ _, ?_, ?_⟩
    · show DatabaseManager.getSession
        (DatabaseManager.updateSession st.db id
          (fun r => { r with status := SessionStatus.active })) id = _
      rw [DatabaseManager.getSession_updateSession_self st.db id
        (fun r => { r with status := SessionStatus.active }) (fun _ => rfl)]
    · show hasLiveTimerAt
        { db := _, activeSessions := _
        , timers := mapSet st.timers id st.nextHandle
        , liveTimers := st.liveTimers ++ [⟨st.nextHandle, id, s.interval_seconds⟩]
        , nextHandle := st.nextHandle + 1 } id s.interval_seconds = true
      unfold hasLiveTimerAt
      rw [mapLookup_set_self]
      simp

open IntervalManager Examples in
/-- Witness for C9 on a started-then-paused session. -/
theorem C9_resumeSession_behavior_witness :
    (mapLookup stPaused.activeSessions "s" = none →
      resumeSession stPaused "s" = .error .sessionNotFound)
    ∧ (mapLookup stPaused.activeSessions "s" = some memPaused →
       memPaused.status ≠ SessionStatus.paused →
      resumeSession stPaused "s" = .error .stateError)
    ∧ (mapLookup stPaused.activeSessions "s" = some memPaused →
       memPaused.status = SessionStatus.paused →
       resumeSession stPaused "s" = .ok stResumed →
        mapLookup stResumed.activeSessions "s"
            = some { memPaused with status := SessionStatus.active }
        ∧ DatabaseManager.getSession stResumed.db "s"
            = (DatabaseManager.getSession stPaused.db "s").map
                (fun r => { r with status := SessionStatus.active })
        ∧ hasLiveTimerAt stResumed "s" memPaused.interval_seconds = true) :=
  C9_resumeSession_behavior stPaused "s" memPaused stResumed

open IntervalManager Examples in
/-- C10: the per-session timer table stores at most one cancellable handle
per id, and arming a timer for an id that already holds one overwrites the
stored handle without cancelling the earlier timer — both stay live and
only the newest is reachable; `clearTimer` then cancels only the most
recently armed one.  Concretely, the startup flow's second
`resumeActiveSessions()` pass (`initialize` and then `createWindow` after
the permission check) leaves an active persisted session with two live
timers, of which `clearTimer` cancels one. -/
theorem C10_timer_overwrite_leaks
    (st : IMState) (id : String) (data : SessionData) (h1 : Nat)
    (hh : mapLookup st.timers id = some h1)
    (hlive : h1 ∈ st.liveTimers.map (fun tmr => tmr.handle))
    (hfresh : h1 < st.nextHandle) :
    (mapLookup (startSessionTimer st id data).timers id = some st.nextHandle
      ∧ h1 ∈ (startSessionTimer st id data).liveTimers.map (fun tmr => tmr.handle)
      ∧ st.nextHandle
          ∈ (startSessionTimer st id data).liveTimers.map (fun tmr => tmr.handle)
      ∧ h1 ≠ st.nextHandle)
    ∧ (mapLookup (clearTimer (startSessionTimer st id data) id).timers id = none
      ∧ h1 ∈ (clearTimer (startSessionTimer st id data) id).liveTimers.map
          (fun tmr => tmr.handle)
      ∧ st.nextHandle
          ∉ (clearTimer (startSessionTimer st id data) id).liveTimers.map
              (fun tmr => tmr.handle))
    ∧ ((stRecoveredTwice.liveTimers.filter
          (fun tmr => tmr.session_id == "a")).length = 2
      ∧ ((clearTimer stRecoveredTwice "a").liveTimers.filter
          (fun tmr => tmr.session_id == "a")).length = 1) := by
  have hne : h1 ≠ st.nextHandle := Nat.ne_of_lt hfresh
  have hlook2 : mapLookup (startSessionTimer st id data).timers id
      = some st.nextHandle := mapLookup_set_self _ _ _
  have hcl : clearTimer (startSessionTimer st id data) id
      = { startSessionTimer st id data with
          liveTimers := (startSessionTimer st id data).liveTimers.filter
            (fun tmr => tmr.handle != st.nextHandle)
        , timers := mapErase (startSessionTimer st id data).timers id } := by
    unfold clearTimer
    rw [hlook2]
  obtain ⟨tmr1, htmr1, hh1⟩ := List.mem_map.mp hlive
  refine ⟨⟨hlook2, ?_, ?_, hne⟩, ⟨?_, ?_, ?_⟩, by decide⟩
  · simp only [startSessionTimer, List.map_append, List.mem_append]
    exact Or.inl (List.mem_map.mpr ⟨tmr1, htmr1, hh1⟩)
  · simp [startSessionTimer]
  · exact clearTimer_timers_self _ _
  · rw [hcl]
    refine List.mem_map.mpr ⟨tmr1, List.mem_filter.mpr ⟨?_, ?_⟩, hh1⟩
    · simp [startSessionTimer, htmr1]
    · simp [hh1, hne]
  · rw [hcl]
    intro hmem
    obtain ⟨tmr2, htmr2, hh2⟩ := List.mem_map.mp hmem
    have := (List.mem_filter.mp htmr2).2
    rw [hh2] at this
    simp at this

open IntervalManager Examples in
/-- Witness for C10 at the once-recovered state, whose timer table holds
handle 0 for the active session. -/
theorem C10_timer_overwrite_leaks_witness :
    (mapLookup (startSessionTimer stRecovered "a"
        { session_id := "a", capture_type := "screenshot", interval_seconds := 5
        , max_captures := none, device_id := none }).timers "a"
        = some stRecovered.nextHandle
      ∧ 0 ∈ (startSessionTimer stRecovered "a"
          { session_id := "a", capture_type := "screenshot", interval_seconds := 5
          , max_captures := none, device_id := none }).liveTimers.map
            (fun tmr => tmr.handle)
      ∧ stRecovered.nextHandle ∈ (startSessionTimer stRecovered "a"
          { session_id := "a", capture_type := "screenshot", interval_seconds := 5
          , max_captures := none, device_id := none }).liveTimers.map
            (fun tmr => tmr.handle)
      ∧ 0 ≠ stRecovered.nextHandle)
    ∧ (mapLookup (clearTimer (startSessionTimer stRecovered "a"
          { session_id := "a", capture_type := "screenshot", interval_seconds := 5
          , max_captures := none, device_id := none }) "a").timers "a" = none
      ∧ 0 ∈ (clearTimer (startSessionTimer stRecovered "a"
          { session_id := "a", capture_type := "screenshot", interval_seconds := 5
          , max_captures := none, device_id := none }) "a").liveTimers.map
            (fun tmr => tmr.handle)
      ∧ stRecovered.nextHandle ∉ (clearTimer (startSessionTimer stRecovered "a"
          { session_id := "a", capture_type := "screenshot", interval_seconds := 5
          , max_captures := none, device_id := none }) "a").liveTimers.map
            (fun tmr => tmr.handle))
    ∧ ((stRecoveredTwice.liveTimers.filter
          (fun tmr => tmr.session_id == "a")).length = 2
      ∧ ((clearTimer stRecoveredTwice "a").liveTimers.filter
          (fun tmr => tmr.session_id == "a")).length = 1) :=
  C10_timer_overwrite_leaks stRecovered "a"
    { session_id := "a", capture_type := "screenshot", interval_seconds := 5
    , max_captures := none, device_id := none } 0
    (by decide) (by decide) (by decide)

end MamaTracker
